import Mathlib

/-!
Verification development for the persona-plus plugin.

The Python sources are shallowly embedded: strings become `List Char`
(`Str`), Python dictionaries become association lists, fallible code
returns `Except`/`Option`, and host-framework state (configs,
conversation store, persona store, the QQ profile-sync cache) becomes
explicit record-passing.  Each definition mirrors one function of the
repository; theorems below settle the frozen claims against them.
-/

/-- Python strings are modelled as lists of characters. -/
abbrev Str := List Char

/-- Model of Python `str.lower()` (per-character lowering). -/
def pyLower (s : Str) : Str := s.map Char.toLower

/-- Model of Python `str.strip()`: drop whitespace on both ends. -/
def pyStrip (s : Str) : Str :=
  ((s.dropWhile Char.isWhitespace).reverse.dropWhile Char.isWhitespace).reverse

/-- Python substring containment `needle in hay` on strings. -/
def pyContains (hay needle : Str) : Bool := decide (needle <:+: hay)

/-- `d.get k` on an association-list model of a Python dict. -/
def alist_get {β : Type} (k : Str) : List (Str × β) → Option β
  | [] => none
  | (k', v) :: rest => if k' = k then some v else alist_get k rest

/-- `d[k] = v` on an association-list model of a Python dict. -/
def alist_set {β : Type} (k : Str) (v : β) : List (Str × β) → List (Str × β)
  | [] => [(k, v)]
  | (k', v') :: rest =>
    if k' = k then (k, v) :: rest else (k', v') :: alist_set k v rest

/-- Update the value at key `k` when present; no-op when absent. -/
def alist_update {β : Type} (k : Str) (f : β → β) : List (Str × β) → List (Str × β)
  | [] => []
  | (k', v') :: rest =>
    if k' = k then (k, f v') :: rest else (k', v') :: alist_update k f rest

/-! ## core/models.py -/

/-- `KeywordMapping` from core/models.py: one configured keyword→persona pair. -/
structure KeywordMapping where
  keyword : Str
  persona_id : Str
  reply_template : Str := []
deriving DecidableEq, Repr

/-- `KeywordMapping.matches`: `self.keyword.lower() in text.lower()`. -/
def KeywordMapping.matchesText (m : KeywordMapping) (text : Str) : Bool :=
  pyContains (pyLower text) (pyLower m.keyword)

/-- Python `entry.partition(":")` restricted to the found case: split at the
first colon, `none` when no colon occurs. -/
def partitionColon : Str → Option (Str × Str)
  | [] => none
  | c :: rest =>
    if c = ':' then some ([], rest)
    else
      match partitionColon rest with
      | some (l, r) => some (c :: l, r)
      | none => none

/-- The three failure classes of `parse_mapping_entry`. -/
inductive ParseErr where
  | invalidFormat
  | invalidPersonaId
  | invalidKeyword
deriving DecidableEq, Repr

/-- `parse_mapping_entry` from core/models.py: split on the first `:`,
fail when no colon, when the right side strips to empty, or when the left
side strips to empty; otherwise build the mapping from the stripped parts. -/
def parse_mapping_entry (entry : Str) : Except ParseErr KeywordMapping :=
  match partitionColon entry with
  | none => .error .invalidFormat
  | some (left, right) =>
    let persona_id := pyStrip right
    if persona_id = [] then .error .invalidPersonaId
    else
      let keyword := pyStrip left
      if keyword = [] then .error .invalidKeyword
      else .ok { keyword := keyword, persona_id := persona_id }

/-! ## core/keyword_switch.py -/

/-- `match_keyword`: scan the mappings in order, return the first that
matches the text, `none` when no mapping matches. -/
def match_keyword (mappings : List KeywordMapping) (text : Str) :
    Option KeywordMapping :=
  match mappings with
  | [] => none
  | m :: rest => if m.matchesText text then some m else match_keyword rest text

/-! ## core/config.py — keyword-mapping loading loop -/

/-- The mapping-loading loop of `load_settings` (core/config.py lines 51-59):
strip each raw line, skip blank lines and `#` comments, parse the rest,
drop lines whose parse fails, and keep going after a failure. -/
def load_mapping_lines : List Str → List KeywordMapping
  | [] => []
  | raw :: rest =>
    let entry := pyStrip raw
    if entry = [] then load_mapping_lines rest
    else if entry.head? = some '#' then load_mapping_lines rest
    else
      match parse_mapping_entry entry with
      | .ok m => m :: load_mapping_lines rest
      | .error _ => load_mapping_lines rest

/-- The defensive post-filter of `load_settings` (line 60): keep only
mappings with non-empty keyword and persona id. -/
def filtered_mappings (entries : List Str) : List KeywordMapping :=
  (load_mapping_lines entries).filter fun m =>
    decide (m.keyword ≠ []) && decide (m.persona_id ≠ [])

/-! ## core/message_utils.py — message components -/

/-- Closed variant type over the message components the plugin inspects:
plain text, images, files (carrying the `get_file` fetch result: `none`
models an empty temp path, `some bytes` the downloaded content), reply
wrappers holding a chain of components, and anything else. -/
inductive Comp where
  | text (s : Str)
  | image (url : Option Str)
  | file (fetched : Option (List Nat)) (suffix : Str)
  | reply (chain : List Comp)
  | other

/-- `isinstance(c, Comp.File)`. -/
def Comp.isFile : Comp → Bool
  | .file _ _ => true
  | _ => false

/-- `isinstance(c, Comp.Image)`. -/
def Comp.isImage : Comp → Bool
  | .image _ => true
  | _ => false

/-- A message event as the embedded waiter and extractor see it:
`message_str` plus the component chain. -/
structure MsgEvent where
  message_str : Str
  components : List Comp

/-- `iter_all_components`: yield each top-level component, and after a
reply component also the members of its chain (one level deep). -/
def iter_all_components (e : MsgEvent) : List Comp :=
  e.components.flatMap fun c =>
    match c with
    | .reply chain => .reply chain :: chain
    | c => [c]

/-- `has_component_of_types`, with the isinstance test against a type
tuple abstracted into a boolean predicate on components. -/
def has_component_of_types (e : MsgEvent) (accept : Comp → Bool) : Bool :=
  (iter_all_components e).any accept

/-- `first_component_of_types`. -/
def first_component_of_types (e : MsgEvent) (accept : Comp → Bool) :
    Option Comp :=
  (iter_all_components e).find? accept

/-! ## core/permissions.py -/

/-- `is_admin`: the stringified sender id is a member of the
host-configured `admins_id` list. -/
def is_admin (admins_id : List Str) (sender_id : Str) : Bool :=
  decide (sender_id ∈ admins_id)

/-- The fixed denial message of `check_permission`. -/
def permission_denied_message : Str :=
  String.toList ("此操作需要管理员权限。")

/-- `check_permission`: deny with the fixed message when the command is in
the admin-command set and the sender is not an admin; allow with an empty
message otherwise.  The command is tested as-is — the source applies no
`.lower()` at check time (lower-casing happens only to the configured set
at load time). -/
def check_permission (admins_id : List Str) (sender_id : Str)
    (command : Str) (admin_commands : List Str) : Bool × Str :=
  if command ∈ admin_commands ∧ ¬ is_admin admins_id sender_id then
    (false, permission_denied_message)
  else
    (true, [])

/-! ## core/config.py — manage_wait_timeout coercion -/

/-- The raw configuration values the timeout key can hold in the model. -/
inductive CVal where
  | vInt (i : Int)
  | vBool (b : Bool)
  | vStr (s : Str)
  | vNone
deriving DecidableEq, Repr

/-- Digits-only numeral reading; `none` on an empty or non-digit list. -/
def digitsToNat : Str → Option Nat
  | [] => none
  | l => if l.all Char.isDigit then some (l.foldl (fun n c => 10 * n + c.toNat - 48) 0) else none

/-- Python `int(str)`: strip, optional sign, digits. -/
def pyStrToInt (s : Str) : Option Int :=
  match pyStrip s with
  | '+' :: rest => (digitsToNat rest).map Int.ofNat
  | '-' :: rest => (digitsToNat rest).map fun n => -(n : Int)
  | t => (digitsToNat t).map Int.ofNat

/-- Python `int(raw)` over the modelled value domain; `none` models the
`TypeError`/`ValueError` caught by `load_settings`. -/
def pyToInt : CVal → Option Int
  | .vInt i => some i
  | .vBool b => some (if b then 1 else 0)
  | .vStr s => pyStrToInt s
  | .vNone => none

/-- The `manage_wait_timeout_seconds` coercion of `load_settings`
(core/config.py lines 81-95): failed conversion falls back to 60, a
non-positive conversion is reset to 60, otherwise the converted value is
kept.  An absent key is modelled by passing the `config.get` default
`.vInt 60`. -/
def load_manage_wait_timeout (raw : CVal) : Int :=
  match pyToInt raw with
  | none => 60
  | some t => if t ≤ 0 then 60 else t

/-! ## qq_profile_sync.py — nickname formatting -/

/-- `QQProfileSync.format_nickname`, with the stdlib
`template.format(persona_id=...)` call abstracted into its outcome
(`none` models a raised formatting exception): on failure fall back to
the persona id, then return the first 60 characters of the nickname when
it is non-empty, else the first 60 characters of the persona id. -/
def format_nickname (formatted : Option Str) (persona_id : Str) : Str :=
  let nickname := match formatted with
    | some s => s
    | none => persona_id
  if nickname ≠ [] then nickname.take 60 else persona_id.take 60

/-! ## core/persona_io.py — persona-text extraction -/

/-- The failure classes of the extraction pipeline. -/
inductive ExtractErr where
  | noTextFile
  | fetchFailed
  | emptyFile
  | undecodable
  | noContent
deriving DecidableEq, Repr

/-- The stdlib `bytes.decode(encoding)` calls abstracted into their
outcomes: `none` models a raised `UnicodeDecodeError`/`LookupError`. -/
structure DecodeEnv where
  utf8 : List Nat → Option Str
  gbk : List Nat → Option Str

/-- Result of the file branch: the raw bytes persisted to
`persona_data_dir/<persona_id>.txt` and the decoded, stripped content. -/
structure FileExtract where
  savedBytes : List Nat
  content : Str
deriving DecidableEq, Repr

/-- `download_and_parse_persona_file` from core/persona_io.py: find the
first file component (reply chains included), fail when none, fail when
`get_file` yields nothing, fail on an empty file, otherwise persist the
raw bytes and decode them trying UTF-8 first and GBK second, failing
when both decodes fail; the decoded text is stripped. -/
def download_and_parse_persona_file (d : DecodeEnv) (e : MsgEvent) :
    Except ExtractErr FileExtract :=
  match first_component_of_types e Comp.isFile with
  | some (.file fetched _) =>
    (match fetched with
     | none => .error .fetchFailed
     | some raw =>
       if raw = [] then .error .emptyFile
       else
         match d.utf8 raw with
         | some content => .ok { savedBytes := raw, content := pyStrip content }
         | none =>
           match d.gbk raw with
           | some content => .ok { savedBytes := raw, content := pyStrip content }
           | none => .error .undecodable)
  | _ => .error .noTextFile

/-- What `extract_persona_from_event` produced: file-branch output or the
event's plain stripped text. -/
inductive ExtractOut where
  | fromFile (fx : FileExtract)
  | fromText (t : Str)
deriving DecidableEq, Repr

/-- `extract_persona_from_event` from core/persona_io.py: prefer the file
branch whenever any file component is present (reply chains included);
otherwise use the stripped message text; fail with the no-content error
when the stripped text is empty too. -/
def extract_persona_from_event (d : DecodeEnv) (e : MsgEvent) :
    Except ExtractErr ExtractOut :=
  if has_component_of_types e Comp.isFile then
    (download_and_parse_persona_file d e).map .fromFile
  else
    let text := pyStrip e.message_str
    if text ≠ [] then .ok (.fromText text) else .error .noContent

/-! ## main.py — `_create_persona` -/

/-- The host persona store: persona id → system prompt. -/
abbrev PersonaStore := List (Str × Str)

/-- `persona_mgr.get_persona`: `ValueError` (modelled as `.error`) when
the persona is absent. -/
def pm_get_persona (store : PersonaStore) (pid : Str) : Except Unit Str :=
  match alist_get pid store with
  | some p => .ok p
  | none => .error ()

/-- The `try` body of `_create_persona` (main.py lines 426-431): call
`get_persona`, and when it returns normally raise
`ValueError("人格 ... 已存在 ...")`.  Either way the body ends in a
`ValueError`. -/
def create_try_body (store : PersonaStore) (pid : Str) : Except Unit Unit :=
  match pm_get_persona store pid with
  | .ok _ => .error ()
  | .error e => .error e

/-- Observable outcome of one `_create_persona` call. -/
structure CreateFlowResult where
  createCalled : Bool
  raised : Bool
  store : PersonaStore
deriving DecidableEq, Repr

/-- `PersonaPlus._create_persona` (main.py lines 418-440) translated with
Python exception semantics: the `except ValueError` clause of the `try`
also catches the `raise ValueError("已存在")` issued inside that same
`try`, so the host `create_persona` call (modelled as an upsert into the
store) is reached both when `get_persona` failed and when it succeeded,
and the function itself propagates nothing. -/
def create_persona_flow (store : PersonaStore) (pid prompt : Str) :
    CreateFlowResult :=
  match create_try_body store pid with
  | .error _ =>
    { createCalled := true, raised := false, store := alist_set pid prompt store }
  | .ok _ => { createCalled := false, raised := false, store := store }

/-- `persona_mgr.update_persona` as the waiter uses it, modelled as an
upsert (the caller is responsible for the existence check). -/
def pm_update_persona (store : PersonaStore) (pid prompt : Str) : PersonaStore :=
  alist_set pid prompt store

/-! ## qq_profile_sync.py — avatar handling and profile sync -/

/-- State owned by `QQProfileSync`: which personas have a saved avatar
file, and the `_last_synced_persona` map (bot key → persona id). -/
structure QQSyncState where
  avatars : List Str
  last_synced : List (Str × Str)
deriving DecidableEq, Repr

/-- `QQProfileSync.extract_image_component`: first top-level image or
file component; for a reply component, the first image or file inside
its chain; `none` when nothing qualifies. -/
def extract_image_component : List Comp → Option Comp
  | [] => none
  | c :: rest =>
    match c with
    | .image u => some (.image u)
    | .file f s => some (.file f s)
    | .reply chain =>
      match chain.find? (fun rc => rc.isImage || rc.isFile) with
      | some rc => some rc
      | none => extract_image_component rest
    | _ => extract_image_component rest

/-- Failure classes of `save_avatar_from_event`. -/
inductive AvatarErr where
  | noComponent
  | downloadFailed
  | fetchFailed
  | badSuffix
  | unsupported
deriving DecidableEq, Repr

/-- The accepted source-image filename suffixes, lower-cased. -/
def allowed_avatar_suffixes : List Str :=
  [String.toList (".jpg"), String.toList (".jpeg"), String.toList (".png"),
   String.toList (".gif"), String.toList (".webp")]

/-- `QQProfileSync.save_avatar_from_event`: pick the first image/file
component; an image with a URL is downloaded (HTTP success abstracted
into `downloadOk`); a file must fetch a temp path and carry an accepted
suffix and is then copied; anything else is rejected.  Success records an
avatar for the persona. -/
def save_avatar_from_event (downloadOk : Bool) (st : QQSyncState)
    (e : MsgEvent) (pid : Str) : Except AvatarErr QQSyncState :=
  match extract_image_component e.components with
  | none => .error .noComponent
  | some (.image url) =>
    (match url with
     | some _ =>
       if downloadOk then .ok { st with avatars := pid :: st.avatars }
       else .error .downloadFailed
     | none => .error .unsupported)
  | some (.file fetched sfx) =>
    (match fetched with
     | none => .error .fetchFailed
     | some _ =>
       if pyLower sfx ∈ allowed_avatar_suffixes then
         .ok { st with avatars := pid :: st.avatars }
       else .error .badSuffix)
  | some _ => .error .unsupported

/-- `QQProfileSync.reset_persona_cache`: drop every map entry whose value
is the given persona id. -/
def reset_persona_cache (pid : Str) (m : List (Str × Str)) : List (Str × Str) :=
  m.filter fun kv => decide (kv.2 ≠ pid)

/-- The environment of one `maybe_sync_profile` run: event identity and
the availability/success of each host adapter call. -/
structure SyncEnv where
  is_aiocq : Bool
  platform_id : Str
  self_id : Str
  group_id : Option Str
  has_set_profile : Bool
  set_profile_ok : Bool
  has_call_action : Bool
  set_group_card_ok : Bool
  has_set_avatar : Bool
  set_avatar_ok : Bool
deriving DecidableEq, Repr

/-- The sync-relevant attributes of `QQProfileSync`. -/
structure SyncCfg where
  enabled : Bool
  sync_nickname : Bool
  sync_avatar : Bool
  nickname_sync_mode : Str
deriving DecidableEq, Repr

/-- Scope/mode string literals used by the sources. -/
def mode_profile : Str := String.toList ("profile")

/-- The `group_card` nickname-sync mode literal. -/
def mode_group_card : Str := String.toList ("group_card")

/-- The `hybrid` nickname-sync mode literal. -/
def mode_hybrid : Str := String.toList ("hybrid")

/-- `QQProfileSync._sync_qq_profile`: true iff the adapter exposes
`set_qq_profile` and the call succeeds. -/
def sync_qq_profile_step (env : SyncEnv) : Bool :=
  if env.has_set_profile then env.set_profile_ok else false

/-- `QQProfileSync._sync_group_card`: false outside a group; otherwise
true iff the adapter exposes `call_action` and the call succeeds. -/
def sync_group_card_step (env : SyncEnv) : Bool :=
  match env.group_id with
  | none => false
  | some _ => if env.has_call_action then env.set_group_card_ok else false

/-- `f"{platform_id}:{self_id}"`. -/
def bot_key (env : SyncEnv) : Str := env.platform_id ++ ':' :: env.self_id

/-- Observable outcome of one `maybe_sync_profile` run.  The flags mirror
the local variables `nickname_applied`/`avatar_synced` of the source;
`suppressed_by_cache` marks the early return at the `_last_synced_persona`
lookup. -/
structure SyncRunResult where
  state : QQSyncState
  nickname_applied : Bool
  avatar_synced : Bool
  suppressed_by_cache : Bool
deriving DecidableEq, Repr

/-- The nickname sub-step of `maybe_sync_profile`: when requested,
dispatch on the sync mode (profile → QQ profile; group_card → group card
in groups only; hybrid → group card in groups, QQ profile otherwise).
The formatted nickname only feeds the adapter calls, whose outcomes the
environment abstracts. -/
def maybe_sync_nickname_applied (cfg : SyncCfg) (env : SyncEnv) (force : Bool) : Bool :=
  if force || cfg.sync_nickname then
    if cfg.nickname_sync_mode = mode_profile then sync_qq_profile_step env
    else if cfg.nickname_sync_mode = mode_group_card then
      (if (env.group_id).isSome then sync_group_card_step env else false)
    else if cfg.nickname_sync_mode = mode_hybrid then
      (if (env.group_id).isSome then sync_group_card_step env
       else sync_qq_profile_step env)
    else false
  else false

/-- The avatar sub-step of `maybe_sync_profile`: requested, avatar file
present, adapter call available and successful. -/
def maybe_sync_avatar_synced (cfg : SyncCfg) (env : SyncEnv) (st : QQSyncState)
    (pid : Str) (force : Bool) : Bool :=
  if force || cfg.sync_avatar then
    if pid ∈ st.avatars then
      (if env.has_set_avatar then env.set_avatar_ok else false)
    else false
  else false

/-- `QQProfileSync.maybe_sync_profile` (qq_profile_sync.py lines 138-202):
early-return for non-aiocqhttp events, when sync is disabled and not
forced, when neither sub-step is requested, or when the cache already
records this persona for the bot key; otherwise run the nickname and
avatar sub-steps and record the persona in `_last_synced_persona`
exactly when at least one sub-step succeeded. -/
def maybe_sync_profile (cfg : SyncCfg) (env : SyncEnv) (st : QQSyncState)
    (pid : Str) (force : Bool) : SyncRunResult :=
  if !env.is_aiocq then ⟨st, false, false, false⟩
  else if !(cfg.enabled || force) then ⟨st, false, false, false⟩
  else if !((force || cfg.sync_nickname) || (force || cfg.sync_avatar)) then
    ⟨st, false, false, false⟩
  else if !force && decide (alist_get (bot_key env) st.last_synced = some pid) then
    ⟨st, false, false, true⟩
  else
    let n := maybe_sync_nickname_applied cfg env force
    let a := maybe_sync_avatar_synced cfg env st pid force
    ⟨if n || a then
        { st with last_synced := alist_set (bot_key env) pid st.last_synced }
      else st, n, a, false⟩

/-! ## core/session_flows.py — the armed waiter -/

/-- The three wait modes `schedule_persona_wait` arms (an unknown mode is
rejected before any wait is armed). -/
inductive WaitMode where
  | create
  | update
  | avatar
deriving DecidableEq, Repr

/-- The `accepted` component-type tuple per mode: image or file for
avatar mode, file only for create/update. -/
def accepted_components : WaitMode → Comp → Bool
  | .avatar, c => c.isImage || c.isFile
  | .create, c => c.isFile
  | .update, c => c.isFile

/-- The single reply the waiter sends for a consumed event. -/
inductive WaitReply where
  | succeeded (mode : WaitMode) (pid : Str)
  | failed (mode : WaitMode) (pid : Str)
deriving DecidableEq, Repr

/-- Observable outcome of delivering one event to an armed waiter:
the persona store and sync state afterwards, the reply sent (at most
one), whether the wait stays armed (`controller.keep`) and the timeout
passed to the reset, or the wait was released (`controller.stop`). -/
structure WaitStepResult where
  personas : PersonaStore
  sync : QQSyncState
  reply : Option WaitReply
  armed : Bool
  timeout_reset : Option Int
deriving DecidableEq, Repr

/-- The `waiter` body of `schedule_persona_wait`
(core/session_flows.py lines 42-80): an event whose stripped text is
empty and which carries no accepted component is noise — the controller
keeps the wait armed with the timeout reset, nothing is sent and nothing
is mutated.  A qualifying event is consumed: avatar mode saves the
avatar and invalidates the sync cache for this persona; create mode runs
`_create_persona` on the extracted text; update mode runs the host
update; a `ValueError` from any step becomes a failure reply; success
sends the success reply; both paths stop the controller. -/
def waiter_step (d : DecodeEnv) (downloadOk : Bool) (mode : WaitMode)
    (manage_wait_timeout : Int) (pid : Str) (personas : PersonaStore)
    (sync : QQSyncState) (e : MsgEvent) : WaitStepResult :=
  if pyStrip e.message_str = [] ∧ has_component_of_types e (accepted_components mode) = false then
    { personas := personas, sync := sync, reply := none,
      armed := true, timeout_reset := some manage_wait_timeout }
  else
    match mode with
    | .avatar =>
      (match save_avatar_from_event downloadOk sync e pid with
       | .ok sync' =>
         { personas := personas,
           sync := { sync' with last_synced := reset_persona_cache pid sync'.last_synced },
           reply := some (.succeeded .avatar pid), armed := false, timeout_reset := none }
       | .error _ =>
         { personas := personas, sync := sync,
           reply := some (.failed .avatar pid), armed := false, timeout_reset := none })
    | .create =>
      (match extract_persona_from_event d e with
       | .error _ =>
         { personas := personas, sync := sync,
           reply := some (.failed .create pid), armed := false, timeout_reset := none }
       | .ok out =>
         let content := match out with
           | .fromFile fx => fx.content
           | .fromText t => t
         { personas := (create_persona_flow personas pid content).store, sync := sync,
           reply := some (.succeeded .create pid), armed := false, timeout_reset := none })
    | .update =>
      (match extract_persona_from_event d e with
       | .error _ =>
         { personas := personas, sync := sync,
           reply := some (.failed .update pid), armed := false, timeout_reset := none }
       | .ok out =>
         let content := match out with
           | .fromFile fx => fx.content
           | .fromText t => t
         { personas := pm_update_persona personas pid content, sync := sync,
           reply := some (.succeeded .update pid), armed := false, timeout_reset := none })

/-! ## core/switching.py — scoped persona switching -/

/-- A host config object reduced to the one key the plugin writes:
`provider_settings["default_personality"]`. -/
structure AConfig where
  default_personality : Option Str
deriving DecidableEq, Repr

/-- A conversation record: its persona pointer and history. -/
structure ConvRec where
  persona_id : Option Str
  history : List Nat
deriving DecidableEq, Repr

/-- The host state the switching code touches: the global default
config, the per-origin session configs, the current-conversation map,
the conversation records and the persona store. -/
structure HostState where
  default_conf : AConfig
  session_confs : List (Str × AConfig)
  curr_conv : List (Str × Str)
  conversations : List (Str × ConvRec)
  personas : PersonaStore
deriving DecidableEq, Repr

/-- The `session` scope literal. -/
def scope_session : Str := String.toList ("session")

/-- The `global` scope literal. -/
def scope_global : Str := String.toList ("global")

/-- The `conversation` scope literal. -/
def scope_conversation : Str := String.toList ("conversation")

/-- `set_default_persona` from core/switching.py: session scope writes
the key into the per-origin config when one exists, global scope writes
it into the global default config, every other scope (including
`conversation`) writes nothing. -/
def set_default_persona (scope umo pid : Str) (st : HostState) : HostState :=
  if scope = scope_session then
    match alist_get umo st.session_confs with
    | some conf =>
      { st with session_confs :=
          alist_set umo { conf with default_personality := some pid } st.session_confs }
    | none => st
  else if scope = scope_global then
    { st with default_conf := { st.default_conf with default_personality := some pid } }
  else st

/-- `update_current_conversation` from core/switching.py: look up the
current conversation id for the origin; when none exists do nothing;
otherwise update that conversation's persona pointer, replacing its
history when a reset list is supplied (`none` models Python `None`,
which the host treats as "leave the history unchanged"). -/
def update_current_conversation (umo pid : Str) (history : Option (List Nat))
    (st : HostState) : HostState :=
  match alist_get umo st.curr_conv with
  | none => st
  | some cid =>
    { st with conversations :=
        alist_update cid (fun c =>
          { persona_id := some pid,
            history := match history with
              | some h => h
              | none => c.history }) st.conversations }

/-- Observable outcome of one `switch_persona` call. -/
structure SwitchOutcome where
  host : HostState
  sync : SyncRunResult
  ltm_flag : Bool
  reply : Option Str
deriving DecidableEq, Repr

/-- `switch_persona` from core/switching.py: check the persona exists
(`ValueError`, modelled as `.error`, aborts everything when it does
not), apply the scope-specific config write, always try to update the
current conversation (with an emptied history when context clearing is
on), flag the long-term-memory cleanup when clearing, run the best-effort
profile sync, and reply with the announce text when one was supplied and
non-empty (Python truthiness). -/
def switch_persona (cfg : SyncCfg) (env : SyncEnv) (syncSt : QQSyncState)
    (st : HostState) (umo pid scope : Str) (clear_context_on_switch : Bool)
    (announce : Option Str) : Except Unit SwitchOutcome :=
  match alist_get pid st.personas with
  | none => .error ()
  | some _ =>
    let history_reset : Option (List Nat) :=
      if clear_context_on_switch then some [] else none
    let st1 := set_default_persona scope umo pid st
    let st2 := update_current_conversation umo pid history_reset st1
    let sync := maybe_sync_profile cfg env syncSt pid false
    .ok { host := st2, sync := sync, ltm_flag := clear_context_on_switch,
          reply := match announce with
            | some a => if a = [] then none else some a
            | none => none }

/-! ## main.py — the permission-gated delete command -/

/-- Remove a key from an association list. -/
def alist_remove {β : Type} (k : Str) (l : List (Str × β)) : List (Str × β) :=
  l.filter fun kv => decide (kv.1 ≠ k)

/-- `QQProfileSync.delete_avatar`: drop the persona's avatar file when
present and invalidate the sync cache for that persona. -/
def delete_avatar (pid : Str) (st : QQSyncState) : QQSyncState :=
  { avatars := st.avatars.filter (fun a => decide (a ≠ pid)),
    last_synced := reset_persona_cache pid st.last_synced }

/-- The reply `cmd_delete` sends. -/
inductive DeleteReply where
  | denied (msg : Str)
  | notFound
  | deleted (pid : Str)
deriving DecidableEq, Repr

/-- Observable outcome of one `cmd_delete` invocation. -/
structure DeleteOutcome where
  personas : PersonaStore
  sync : QQSyncState
  reply : DeleteReply
deriving DecidableEq, Repr

/-- The `delete` command-name literal. -/
def command_delete : Str := String.toList ("delete")

/-- `PersonaPlus.cmd_delete` (main.py lines 673-689): run the permission
check first and stop with its message on denial, touching nothing; then
delete through the host store (`ValueError` on a missing persona becomes
an error reply), drop the avatar and sync-cache entries, and confirm. -/
def cmd_delete_flow (admins_id : List Str) (sender_id : Str)
    (admin_commands : List Str) (personas : PersonaStore)
    (sync : QQSyncState) (pid : Str) : DeleteOutcome :=
  let checked := check_permission admins_id sender_id command_delete admin_commands
  if checked.1 = false then
    { personas := personas, sync := sync, reply := .denied checked.2 }
  else
    match alist_get pid personas with
    | none => { personas := personas, sync := sync, reply := .notFound }
    | some _ =>
      { personas := alist_remove pid personas,
        sync := delete_avatar pid sync,
        reply := .deleted pid }

/-! ## Claim C1 — first-match keyword matching -/

/-- Demo mappings for the matcher witness. -/
def demo_map_hi : KeywordMapping :=
  { keyword := String.toList ("hi"), persona_id := String.toList ("A") }

/-- Second demo mapping for the matcher witness. -/
def demo_map_hello : KeywordMapping :=
  { keyword := String.toList ("hello"), persona_id := String.toList ("B") }

/-- Demo text for the matcher witness. -/
def demo_match_text : Str := String.toList ("Hello there")

/-- C1: `match_keyword` returns the first mapping in list order whose
lower-cased keyword is a substring of the lower-cased text, and `none`
exactly when no mapping's lower-cased keyword is such a substring. -/
theorem match_keyword_first_match (M : List KeywordMapping) (T : Str) :
    (∀ m, match_keyword M T = some m →
      ∃ l₁ l₂, M = l₁ ++ m :: l₂ ∧
        pyContains (pyLower T) (pyLower m.keyword) = true ∧
        ∀ m' ∈ l₁, pyContains (pyLower T) (pyLower m'.keyword) = false) ∧
    (match_keyword M T = none ↔
      ∀ m ∈ M, pyContains (pyLower T) (pyLower m.keyword) = false) := by
  induction M with
  | nil =>
    refine ⟨fun m h => by simp [match_keyword] at h, ?_⟩
    simp [match_keyword]
  | cons a rest ih =>
    constructor
    · intro m h
      by_cases hm : a.matchesText T = true
      · rw [match_keyword, if_pos hm] at h
        obtain rfl : a = m := by injection h
        exact ⟨[], rest, rfl, hm, by simp⟩
      · rw [match_keyword, if_neg hm] at h
        obtain ⟨l₁, l₂, hsplit, hmatch, hbefore⟩ := ih.1 m h
        refine ⟨a :: l₁, l₂, by rw [hsplit]; rfl, hmatch, ?_⟩
        intro m' hm'
        rcases List.mem_cons.mp hm' with rfl | hmem
        · simpa [KeywordMapping.matchesText] using hm
        · exact hbefore m' hmem
    · by_cases hm : a.matchesText T = true
      · rw [match_keyword, if_pos hm]
        constructor
        · intro h; cases h
        · intro h
          have := h a (by simp)
          rw [show pyContains (pyLower T) (pyLower a.keyword) = a.matchesText T from rfl] at this
          rw [hm] at this
          cases this
      · rw [match_keyword, if_neg hm]
        rw [ih.2]
        constructor
        · intro h m hmem
          rcases List.mem_cons.mp hmem with rfl | hmem'
          · simpa [KeywordMapping.matchesText] using hm
          · exact h m hmem'
        · intro h m hmem
          exact h m (List.mem_cons_of_mem a hmem)

/-- Witness for C1 at the spec's own example: mappings hi→A, hello→B and
text "Hello there" select hello→B, with hi→A rejected first. -/
theorem match_keyword_first_match_witness :
    ∃ l₁ l₂, [demo_map_hi, demo_map_hello] = l₁ ++ demo_map_hello :: l₂ ∧
      pyContains (pyLower demo_match_text) (pyLower demo_map_hello.keyword) = true ∧
      ∀ m' ∈ l₁, pyContains (pyLower demo_match_text) (pyLower m'.keyword) = false :=
  (match_keyword_first_match [demo_map_hi, demo_map_hello] demo_match_text).1
    demo_map_hello (by decide)

/-! ## Claim C4 — mapping-line parsing -/

/-- Soundness of the colon split: a successful split decomposes the
input at its first colon. -/
theorem partitionColon_some_eq (s l r : Str) :
    partitionColon s = some (l, r) → s = l ++ ':' :: r ∧ ':' ∉ l := by
  induction s generalizing l r with
  | nil => intro h; simp [partitionColon] at h
  | cons c rest ih =>
    by_cases hc : c = ':'
    · subst hc
      intro h
      rw [partitionColon, if_pos rfl] at h
      injection h with h'
      injection h' with h1 h2
      subst h1; subst h2
      simp
    · intro h
      rw [partitionColon, if_neg hc] at h
      cases hrec : partitionColon rest with
      | none => rw [hrec] at h; cases h
      | some p =>
        obtain ⟨l', r'⟩ := p
        rw [hrec] at h
        injection h with h'
        injection h' with h1 h2
        subst h1; subst h2
        obtain ⟨hs, hnl⟩ := ih l' r' hrec
        refine ⟨by rw [hs]; rfl, ?_⟩
        rw [List.mem_cons, not_or]
        exact ⟨fun hh => hc hh.symm, hnl⟩

/-- Completeness of the colon split: splitting `l ++ ':' :: r` with no
colon in `l` yields exactly `(l, r)`. -/
theorem partitionColon_append (l r : Str) (h : ':' ∉ l) :
    partitionColon (l ++ ':' :: r) = some (l, r) := by
  induction l with
  | nil => simp [partitionColon]
  | cons c cs ih =>
    have hc : ¬ c = ':' := fun hh => h (by rw [List.mem_cons]; exact Or.inl hh.symm)
    rw [List.cons_append, partitionColon, if_neg hc,
      ih fun hm => h (List.mem_cons_of_mem _ hm)]

/-- The colon split fails exactly on colon-free input. -/
theorem partitionColon_eq_none (s : Str) :
    partitionColon s = none ↔ ':' ∉ s := by
  induction s with
  | nil => simp [partitionColon]
  | cons c rest ih =>
    by_cases hc : c = ':'
    · subst hc; simp [partitionColon]
    · rw [partitionColon, if_neg hc]
      cases hrec : partitionColon rest with
      | none =>
        simp only [List.mem_cons, not_or]
        constructor
        · intro _; exact ⟨fun hh => hc hh.symm, ih.mp hrec⟩
        · intro _; trivial
      | some p =>
        obtain ⟨l, r⟩ := p
        constructor
        · intro h; cases h
        · intro h
          exfalso
          obtain ⟨hs, _⟩ := partitionColon_some_eq rest l r hrec
          refine h ?_
          rw [List.mem_cons]
          right
          rw [hs]
          exact List.mem_append_right _ (List.mem_cons_self _ _)

/-- C4: a trimmed line splitting at its first colon into non-empty
trimmed halves parses to exactly that mapping; a line without a colon,
or whose right or left half trims to empty, fails to parse; and the
loading loop skips blank and `#` lines while a failing line never stops
the remaining lines from being parsed (the loop equals a per-line
filter-map). -/
theorem parse_mapping_entry_spec :
    (∀ line l r, pyStrip line = l ++ ':' :: r → ':' ∉ l →
        pyStrip l ≠ [] → pyStrip r ≠ [] →
        parse_mapping_entry (pyStrip line) =
          .ok { keyword := pyStrip l, persona_id := pyStrip r, reply_template := [] }) ∧
    (∀ line, ':' ∉ pyStrip line →
        parse_mapping_entry (pyStrip line) = .error .invalidFormat) ∧
    (∀ line l r, pyStrip line = l ++ ':' :: r → ':' ∉ l →
        (pyStrip r = [] ∨ pyStrip l = []) →
        ∃ err, parse_mapping_entry (pyStrip line) = .error err) ∧
    (∀ lines : List Str, load_mapping_lines lines =
        lines.filterMap fun raw =>
          if pyStrip raw = [] ∨ (pyStrip raw).head? = some '#' then none
          else (parse_mapping_entry (pyStrip raw)).toOption) := by
  refine ⟨?_, ?_, ?_, ?_⟩
  · intro line l r hsplit hnl hl hr
    rw [hsplit, parse_mapping_entry, partitionColon_append l r hnl]
    simp [hl, hr]
  · intro line h
    rw [parse_mapping_entry, (partitionColon_eq_none (pyStrip line)).mpr h]
  · intro line l r hsplit hnl hor
    rw [hsplit, parse_mapping_entry, partitionColon_append l r hnl]
    rcases hor with h0 | h0
    · exact ⟨.invalidPersonaId, by simp [h0]⟩
    · by_cases hr : pyStrip r = []
      · exact ⟨.invalidPersonaId, by simp [hr]⟩
      · exact ⟨.invalidKeyword, by simp [hr, h0]⟩
  · intro lines
    induction lines with
    | nil => rfl
    | cons raw rest ih =>
      rw [load_mapping_lines, List.filterMap_cons]
      by_cases h1 : pyStrip raw = []
      · simp [h1, ih]
      · by_cases h2 : (pyStrip raw).head? = some '#'
        · simp [h1, h2, ih]
        · cases hp : parse_mapping_entry (pyStrip raw) with
          | ok m => simp [h1, h2, hp, ih, Except.toOption]
          | error err => simp [h1, h2, hp, ih, Except.toOption]

/-- Witness for C4: the line `" hi : A "` trims and splits into keyword
`hi` and persona id `A`. -/
theorem parse_mapping_entry_spec_witness :
    parse_mapping_entry (pyStrip (String.toList (" hi : A "))) =
      .ok { keyword := String.toList ("hi"), persona_id := String.toList ("A"),
            reply_template := [] } := by
  have h := parse_mapping_entry_spec.1 (String.toList (" hi : A "))
    (String.toList ("hi ")) (String.toList (" A")) (by decide) (by decide)
    (by decide) (by decide)
  rw [h]
  rfl

/-! ## Claim C2 — scope-specific persistence writes -/

/-- Looking up the updated key returns the mapped value. -/
theorem alist_get_update_self {β : Type} (k : Str) (f : β → β) (l : List (Str × β)) :
    alist_get k (alist_update k f l) = (alist_get k l).map f := by
  induction l with
  | nil => rfl
  | cons kv rest ih =>
    obtain ⟨k', v'⟩ := kv
    by_cases h : k' = k
    · subst h
      rw [alist_update, if_pos rfl, alist_get, if_pos rfl, alist_get, if_pos rfl]
      rfl
    · rw [alist_update, if_neg h, alist_get, if_neg h, alist_get, if_neg h, ih]

/-- Global scope writes the persona into the global default config. -/
theorem set_default_persona_global (umo pid : Str) (st : HostState) :
    set_default_persona scope_global umo pid st =
      { st with default_conf := { st.default_conf with default_personality := some pid } } := by
  rw [set_default_persona, if_neg (by decide), if_pos rfl]

/-- Conversation scope performs no config write. -/
theorem set_default_persona_conversation (umo pid : Str) (st : HostState) :
    set_default_persona scope_conversation umo pid st = st := by
  rw [set_default_persona, if_neg (by decide), if_neg (by decide)]

/-- The conversation update never touches configs, the current-conversation
map, or the persona store. -/
theorem update_conv_preserves (umo pid : Str) (hist : Option (List Nat)) (st : HostState) :
    (update_current_conversation umo pid hist st).default_conf = st.default_conf ∧
    (update_current_conversation umo pid hist st).session_confs = st.session_confs ∧
    (update_current_conversation umo pid hist st).curr_conv = st.curr_conv ∧
    (update_current_conversation umo pid hist st).personas = st.personas := by
  unfold update_current_conversation
  cases alist_get umo st.curr_conv <;> exact ⟨rfl, rfl, rfl, rfl⟩

/-- With a current conversation, the update rewrites that conversation's
persona pointer (and history when a reset is supplied). -/
theorem update_conv_lookup (umo pid : Str) (hist : Option (List Nat))
    (st : HostState) (cid : Str) (c : ConvRec)
    (hcid : alist_get umo st.curr_conv = some cid)
    (hc : alist_get cid st.conversations = some c) :
    alist_get cid (update_current_conversation umo pid hist st).conversations =
      some { persona_id := some pid,
             history := match hist with
               | some h => h
               | none => c.history } := by
  unfold update_current_conversation
  rw [hcid]
  show alist_get cid (alist_update cid _ st.conversations) = _
  rw [alist_get_update_self, hc]
  rfl

/-- Without a current conversation, the update is a no-op. -/
theorem update_conv_none (umo pid : Str) (hist : Option (List Nat))
    (st : HostState) (h : alist_get umo st.curr_conv = none) :
    update_current_conversation umo pid hist st = st := by
  unfold update_current_conversation
  rw [h]

/-- C2: switching with global scope writes the persona into the global
config's `provider_settings.default_personality` (leaving session
configs alone) and updates the active conversation when one exists;
switching with conversation scope leaves the whole config state
unchanged while still updating the active conversation when one exists. -/
theorem switch_persona_scope_effects
    (cfg : SyncCfg) (env : SyncEnv) (syncSt : QQSyncState) (st : HostState)
    (umo pid : Str) (clear : Bool) (announce : Option Str) (p : Str)
    (hp : alist_get pid st.personas = some p) :
    (∃ r, switch_persona cfg env syncSt st umo pid scope_global clear announce = .ok r ∧
      r.host.default_conf.default_personality = some pid ∧
      r.host.session_confs = st.session_confs ∧
      r.host.curr_conv = st.curr_conv ∧
      r.host.personas = st.personas ∧
      (∀ cid c, alist_get umo st.curr_conv = some cid →
        alist_get cid st.conversations = some c →
        alist_get cid r.host.conversations =
          some { persona_id := some pid,
                 history := if clear then [] else c.history }) ∧
      (alist_get umo st.curr_conv = none →
        r.host.conversations = st.conversations)) ∧
    (∃ r, switch_persona cfg env syncSt st umo pid scope_conversation clear announce = .ok r ∧
      r.host.default_conf = st.default_conf ∧
      r.host.session_confs = st.session_confs ∧
      r.host.curr_conv = st.curr_conv ∧
      r.host.personas = st.personas ∧
      (∀ cid c, alist_get umo st.curr_conv = some cid →
        alist_get cid st.conversations = some c →
        alist_get cid r.host.conversations =
          some { persona_id := some pid,
                 history := if clear then [] else c.history }) ∧
      (alist_get umo st.curr_conv = none →
        r.host.conversations = st.conversations)) := by
  constructor
  · refine ⟨{ host := update_current_conversation umo pid (if clear then some [] else none)
                (set_default_persona scope_global umo pid st),
              sync := maybe_sync_profile cfg env syncSt pid false,
              ltm_flag := clear,
              reply := match announce with
                | some a => if a = [] then none else some a
                | none => none }, ?_, ?_, ?_, ?_, ?_, ?_, ?_⟩
    · unfold switch_persona
      rw [hp]
    · rw [(update_conv_preserves _ _ _ _).1, set_default_persona_global]
    · rw [(update_conv_preserves _ _ _ _).2.1, set_default_persona_global]
    · rw [(update_conv_preserves _ _ _ _).2.2.1, set_default_persona_global]
    · rw [(update_conv_preserves _ _ _ _).2.2.2, set_default_persona_global]
    · intro cid c hcid hc
      rw [set_default_persona_global]
      cases clear
      · exact update_conv_lookup umo pid none _ cid c hcid hc
      · exact update_conv_lookup umo pid (some []) _ cid c hcid hc
    · intro hnone
      rw [set_default_persona_global,
        update_conv_none umo pid (if clear then some [] else none)
          { st with default_conf := { st.default_conf with default_personality := some pid } }
          hnone]
  · refine ⟨{ host := update_current_conversation umo pid (if clear then some [] else none)
                (set_default_persona scope_conversation umo pid st),
              sync := maybe_sync_profile cfg env syncSt pid false,
              ltm_flag := clear,
              reply := match announce with
                | some a => if a = [] then none else some a
                | none => none }, ?_, ?_, ?_, ?_, ?_, ?_, ?_⟩
    · unfold switch_persona
      rw [hp]
    · rw [(update_conv_preserves _ _ _ _).1, set_default_persona_conversation]
    · rw [(update_conv_preserves _ _ _ _).2.1, set_default_persona_conversation]
    · rw [(update_conv_preserves _ _ _ _).2.2.1, set_default_persona_conversation]
    · rw [(update_conv_preserves _ _ _ _).2.2.2, set_default_persona_conversation]
    · intro cid c hcid hc
      rw [set_default_persona_conversation]
      cases clear
      · exact update_conv_lookup umo pid none _ cid c hcid hc
      · exact update_conv_lookup umo pid (some []) _ cid c hcid hc
    · intro hnone
      rw [set_default_persona_conversation,
        update_conv_none umo pid (if clear then some [] else none) st hnone]

/-- Demo origin for the switching witness. -/
def demo_umo : Str := String.toList ("platform:123:456")

/-- Demo conversation id for the switching witness. -/
def demo_conv_id : Str := String.toList ("conv1")

/-- Demo persona id for the switching witness. -/
def demo_pid : Str := String.toList ("X")

/-- Demo host state with one persona and one active conversation. -/
def demo_host : HostState :=
  { default_conf := { default_personality := none },
    session_confs := [],
    curr_conv := [(demo_umo, demo_conv_id)],
    conversations := [(demo_conv_id, { persona_id := none, history := [7] })],
    personas := [(demo_pid, [])] }

/-- Demo sync configuration (sync fully disabled). -/
def demo_sync_cfg : SyncCfg :=
  { enabled := false, sync_nickname := false, sync_avatar := false,
    nickname_sync_mode := mode_profile }

/-- Demo sync environment (non-aiocqhttp event, no adapter calls). -/
def demo_sync_env : SyncEnv :=
  { is_aiocq := false, platform_id := [], self_id := [], group_id := none,
    has_set_profile := false, set_profile_ok := false, has_call_action := false,
    set_group_card_ok := false, has_set_avatar := false, set_avatar_ok := false }

/-- Demo sync state (no avatars, empty cache). -/
def demo_sync_state : QQSyncState := { avatars := [], last_synced := [] }

/-- Witness for C2: on the demo state, a global-scope switch to persona
X succeeds and the global config's default personality becomes X. -/
theorem switch_persona_scope_effects_witness :
    ∃ r, switch_persona demo_sync_cfg demo_sync_env demo_sync_state demo_host
        demo_umo demo_pid scope_global false none = .ok r ∧
      r.host.default_conf.default_personality = some demo_pid := by
  obtain ⟨⟨r, h1, h2, _⟩, _⟩ := switch_persona_scope_effects demo_sync_cfg demo_sync_env
    demo_sync_state demo_host demo_umo demo_pid false none [] (by decide)
  exact ⟨r, h1, h2⟩

/-! ## Claim C3 — `_create_persona` on an existing persona -/

/-- Demo persona id for the create-flow evaluation. -/
def create_demo_pid : Str := String.toList ("X")

/-- C3 evaluation at the failing input: with persona X already in the
store, `_create_persona` still reaches the host `create_persona` call
and raises nothing — its own `except ValueError` catches the
`raise ValueError("已存在")` issued inside the same `try`, contradicting
the code's comment and the claim. -/
theorem create_persona_flow_reaches_create_on_existing :
    alist_get create_demo_pid [(create_demo_pid, ([] : Str))] = some [] ∧
    (create_persona_flow [(create_demo_pid, [])] create_demo_pid []).createCalled = true ∧
    (create_persona_flow [(create_demo_pid, [])] create_demo_pid []).raised = false := by
  refine ⟨?_, rfl, rfl⟩
  rw [alist_get, if_pos rfl]

/-! ## Claim C5 — noise filtering in the armed waiter -/

/-- C5: while a wait is armed, an event whose text strips to empty and
which carries none of the mode-specific accepted component types is
treated as noise: the wait stays armed with its timeout reset, no reply
is sent, and neither the persona store nor the sync state changes. -/
theorem waiter_step_noise_filter (d : DecodeEnv) (downloadOk : Bool)
    (mode : WaitMode) (timeout : Int) (pid : Str) (personas : PersonaStore)
    (sync : QQSyncState) (e : MsgEvent)
    (htext : pyStrip e.message_str = [])
    (hcomp : has_component_of_types e (accepted_components mode) = false) :
    waiter_step d downloadOk mode timeout pid personas sync e =
      { personas := personas, sync := sync, reply := none,
        armed := true, timeout_reset := some timeout } := by
  unfold waiter_step
  rw [if_pos ⟨htext, hcomp⟩]

/-- ASCII-only decoder standing in for the stdlib codecs in witnesses. -/
def ascii_decode (bs : List Nat) : Option Str :=
  if bs.all (· < 128) then some (bs.map Char.ofNat) else none

/-- Concrete decode environment for witnesses. -/
def demo_decode_env : DecodeEnv := { utf8 := ascii_decode, gbk := ascii_decode }

/-- A noise event: whitespace-only text, an unknown component and an
empty reply wrapper — no image, no file. -/
def demo_noise_event : MsgEvent :=
  { message_str := String.toList ("  "),
    components := [Comp.other, Comp.reply []] }

/-- Witness for C5 in avatar mode on the noise event. -/
theorem waiter_step_noise_filter_witness :
    waiter_step demo_decode_env true WaitMode.avatar 60 demo_pid [] demo_sync_state
      demo_noise_event =
      { personas := [], sync := demo_sync_state, reply := none,
        armed := true, timeout_reset := some 60 } :=
  waiter_step_noise_filter demo_decode_env true WaitMode.avatar 60 demo_pid []
    demo_sync_state demo_noise_event (by decide) (by rfl)

/-! ## Claim C6 — admin-command permission gate -/

/-- Counterexample to C6 as stated: for command `"Delete"` against the
admin set `{"delete"}` and a non-admin sender, the lower-cased command is
in the set — the claim demands denial — yet `check_permission` tests the
command as-is, finds no membership, and allows with an empty message. -/
theorem check_permission_lowercase_cex :
    pyLower (String.toList ("Delete")) ∈ [String.toList ("delete")] ∧
    is_admin [] (String.toList ("u1")) = false ∧
    check_permission [] (String.toList ("u1")) (String.toList ("Delete"))
      [String.toList ("delete")] = (true, []) := by decide

/-- C6 amended: the command name is tested as-is (callers pass
lower-case names; no lower-casing happens at check time) for membership
in the admin-command set; a member with a non-admin sender is denied
with exactly the fixed message, anything else is allowed with an empty
message, and a denied `delete` command performs no downstream effect —
the persona store and sync state are untouched and the only output is
the denial reply. -/
theorem check_permission_amended (admins_id : List Str) (sender_id command : Str)
    (admin_commands : List Str) (personas : PersonaStore) (sync : QQSyncState)
    (pid : Str) :
    (command ∈ admin_commands → is_admin admins_id sender_id = false →
      check_permission admins_id sender_id command admin_commands =
        (false, permission_denied_message)) ∧
    (command ∉ admin_commands →
      check_permission admins_id sender_id command admin_commands = (true, [])) ∧
    (is_admin admins_id sender_id = true →
      check_permission admins_id sender_id command admin_commands = (true, [])) ∧
    ((check_permission admins_id sender_id command_delete admin_commands).1 = false →
      cmd_delete_flow admins_id sender_id admin_commands personas sync pid =
        { personas := personas, sync := sync,
          reply := .denied permission_denied_message }) := by
  refine ⟨?_, ?_, ?_, ?_⟩
  · intro h1 h2
    rw [check_permission, if_pos ⟨h1, by simp [h2]⟩]
  · intro h
    rw [check_permission, if_neg fun hh => h hh.1]
  · intro h
    rw [check_permission, if_neg fun hh => hh.2 h]
  · intro h
    have hc : check_permission admins_id sender_id command_delete admin_commands =
        (false, permission_denied_message) := by
      rw [check_permission] at h ⊢
      by_cases hcond : command_delete ∈ admin_commands ∧ ¬ is_admin admins_id sender_id
      · rw [if_pos hcond]
      · rw [if_neg hcond] at h
        simp at h
    unfold cmd_delete_flow
    rw [hc]
    rfl

/-- Witness for C6 amended: a non-admin sender issuing `delete` with
`delete` in the admin set is denied with the fixed message, and the
denied delete leaves the stores untouched. -/
theorem check_permission_amended_witness :
    check_permission [] (String.toList ("u1")) (String.toList ("delete"))
        [String.toList ("delete")] = (false, permission_denied_message) ∧
    cmd_delete_flow [] (String.toList ("u1")) [String.toList ("delete")]
        [(demo_pid, [])] demo_sync_state demo_pid =
      { personas := [(demo_pid, [])], sync := demo_sync_state,
        reply := .denied permission_denied_message } := by
  obtain ⟨h1, _, _, h4⟩ := check_permission_amended [] (String.toList ("u1"))
    (String.toList ("delete")) [String.toList ("delete")] [(demo_pid, [])]
    demo_sync_state demo_pid
  exact ⟨h1 (by decide) (by decide), h4 (by decide)⟩

/-! ## Claim C7 — persona-text extraction -/

/-- The file branch never produces the no-content error: its failures
are file-specific (no file, fetch failure, empty file, undecodable). -/
theorem download_ne_noContent (d : DecodeEnv) (e : MsgEvent) :
    download_and_parse_persona_file d e ≠ .error .noContent := by
  unfold download_and_parse_persona_file
  cases hfind : first_component_of_types e Comp.isFile with
  | none => simp
  | some c =>
    cases c with
    | file fetched sfx =>
      cases fetched with
      | none => simp
      | some raw =>
        by_cases hraw : raw = []
        · simp [hraw]
        · cases hu : d.utf8 raw with
          | some cu => simp [hraw, hu]
          | none =>
            cases hg : d.gbk raw with
            | some cg => simp [hraw, hu, hg]
            | none => simp [hraw, hu, hg]
    | text s => simp
    | image u => simp
    | reply chain => simp
    | other => simp

/-- A create/update candidate carrying an empty attached file and no
text. -/
def empty_file_event : MsgEvent :=
  { message_str := [],
    components := [Comp.file (some []) (String.toList (".txt"))] }

/-- Counterexample to C7 as stated: this event carries a file component,
yet extraction fails (with the empty-file error) — so extraction does
not fail *exactly* when neither a file nor non-empty text is present. -/
theorem extract_persona_file_failure_cex :
    has_component_of_types empty_file_event Comp.isFile = true ∧
    extract_persona_from_event demo_decode_env empty_file_event =
      .error .emptyFile := ⟨rfl, rfl⟩

/-- C7 amended: extraction prefers the attached file whenever one is
present anywhere in the message or its reply chain (persisting the raw
bytes and decoding with UTF-8 first, then the GBK fallback, stripping
the result); with no file it falls back to the event's stripped text;
the no-content error occurs exactly when neither a file component nor
non-empty stripped text is present — but with a file present extraction
can still fail with a file-specific error. -/
theorem extract_persona_amended (d : DecodeEnv) (e : MsgEvent) :
    (has_component_of_types e Comp.isFile = true →
      extract_persona_from_event d e =
        (download_and_parse_persona_file d e).map ExtractOut.fromFile) ∧
    (∀ raw sfx, first_component_of_types e Comp.isFile = some (.file (some raw) sfx) →
      raw ≠ [] →
      (∀ c, d.utf8 raw = some c →
        download_and_parse_persona_file d e =
          .ok { savedBytes := raw, content := pyStrip c }) ∧
      (d.utf8 raw = none → ∀ c, d.gbk raw = some c →
        download_and_parse_persona_file d e =
          .ok { savedBytes := raw, content := pyStrip c }) ∧
      (d.utf8 raw = none → d.gbk raw = none →
        download_and_parse_persona_file d e = .error .undecodable)) ∧
    (has_component_of_types e Comp.isFile = false → pyStrip e.message_str ≠ [] →
      extract_persona_from_event d e = .ok (.fromText (pyStrip e.message_str))) ∧
    (has_component_of_types e Comp.isFile = false → pyStrip e.message_str = [] →
      extract_persona_from_event d e = .error .noContent) ∧
    (extract_persona_from_event d e = .error .noContent →
      has_component_of_types e Comp.isFile = false ∧ pyStrip e.message_str = []) := by
  refine ⟨?_, ?_, ?_, ?_, ?_⟩
  · intro h
    simp only [extract_persona_from_event, h, if_true]
  · intro raw sfx hfind hraw
    unfold download_and_parse_persona_file
    rw [hfind]
    refine ⟨?_, ?_, ?_⟩
    · intro c hu
      simp [hraw, hu]
    · intro hu c hg
      simp [hraw, hu, hg]
    · intro hu hg
      simp [hraw, hu, hg]
  · intro h ht
    simp only [extract_persona_from_event, h, Bool.false_eq_true, if_false]
    rw [if_pos ht]
  · intro h ht
    simp only [extract_persona_from_event, h, Bool.false_eq_true, if_false]
    rw [if_neg fun hne => hne ht]
  · intro h
    by_cases hf : has_component_of_types e Comp.isFile = true
    · exfalso
      simp only [extract_persona_from_event, hf, if_true] at h
      cases hd : download_and_parse_persona_file d e with
      | ok fx => rw [hd] at h; cases h
      | error err =>
        rw [hd] at h
        injection h with h'
        rw [h'] at hd
        exact download_ne_noContent d e hd
    · have hf' : has_component_of_types e Comp.isFile = false := by
        cases hb : has_component_of_types e Comp.isFile
        · rfl
        · exact absurd hb hf
      refine ⟨hf', ?_⟩
      simp only [extract_persona_from_event, hf', Bool.false_eq_true, if_false] at h
      by_cases ht : pyStrip e.message_str = []
      · exact ht
      · rw [if_pos ht] at h
        cases h

/-- Witness for C7 amended: an event with non-empty text and no file
extracts the stripped text. -/
theorem extract_persona_amended_witness :
    extract_persona_from_event demo_decode_env
        { message_str := String.toList (" hello "), components := [] } =
      .ok (.fromText (String.toList ("hello"))) := by
  have h := (extract_persona_amended demo_decode_env
    { message_str := String.toList (" hello "), components := [] }).2.2.1
    rfl (by decide)
  rw [h]
  rfl

/-! ## Claim C8 — manage_wait_timeout coercion never fails -/

/-- C8: for every raw configured value the loaded timeout is strictly
positive; the converted value is kept when it is a positive int, and a
failed or non-positive conversion yields the default 60. -/
theorem manage_wait_timeout_spec (raw : CVal) :
    0 < load_manage_wait_timeout raw ∧
    (∀ t, pyToInt raw = some t → 0 < t → load_manage_wait_timeout raw = t) ∧
    (pyToInt raw = none → load_manage_wait_timeout raw = 60) ∧
    (∀ t, pyToInt raw = some t → t ≤ 0 → load_manage_wait_timeout raw = 60) := by
  cases h : pyToInt raw with
  | none =>
    have heq : load_manage_wait_timeout raw = 60 := by
      unfold load_manage_wait_timeout
      rw [h]
    refine ⟨by rw [heq]; norm_num, ?_, fun _ => heq, ?_⟩
    · intro t ht; simp at ht
    · intro t ht; simp at ht
  | some t =>
    have heq : load_manage_wait_timeout raw = if t ≤ 0 then 60 else t := by
      unfold load_manage_wait_timeout
      rw [h]
    by_cases hle : t ≤ 0
    · rw [if_pos hle] at heq
      refine ⟨by rw [heq]; norm_num, ?_, ?_, fun t' _ _ => heq⟩
      · intro t' ht' hpos
        exfalso
        injection ht' with hh
        rw [← hh] at hpos
        omega
      · intro hn; simp at hn
    · rw [if_neg hle] at heq
      refine ⟨by rw [heq]; omega, ?_, ?_, ?_⟩
      · intro t' ht' _
        injection ht' with hh
        rw [heq, hh]
      · intro hn; simp at hn
      · intro t' ht' hle'
        exfalso
        injection ht' with hh
        rw [← hh] at hle'
        omega

/-- Witness for C8: a negative int and a non-numeric string both load as
60, and a positive int is kept. -/
theorem manage_wait_timeout_spec_witness :
    load_manage_wait_timeout (CVal.vInt (-5)) = 60 ∧
    load_manage_wait_timeout (CVal.vStr (String.toList ("abc"))) = 60 ∧
    load_manage_wait_timeout (CVal.vInt 30) = 30 := by
  refine ⟨?_, ?_, ?_⟩
  · exact (manage_wait_timeout_spec (CVal.vInt (-5))).2.2.2 (-5) rfl (by norm_num)
  · exact (manage_wait_timeout_spec (CVal.vStr (String.toList ("abc")))).2.2.1 rfl
  · exact (manage_wait_timeout_spec (CVal.vInt 30)).2.1 30 rfl (by norm_num)

/-! ## Claim C9 — the last-synced cache updates only on success -/

/-- C9: `_last_synced_persona` gains the switched persona exactly when
at least one sub-step succeeded in the run; when the run is skipped,
suppressed, or every sub-step fails, the whole sync state is unchanged;
and a non-forced run whose cache entry differs from the persona is never
suppressed by the cache, so a later switch retries the sync. -/
theorem last_synced_update_spec (cfg : SyncCfg) (env : SyncEnv)
    (st : QQSyncState) (pid : Str) (force : Bool) :
    ((maybe_sync_profile cfg env st pid force).nickname_applied = false →
      (maybe_sync_profile cfg env st pid force).avatar_synced = false →
      (maybe_sync_profile cfg env st pid force).state = st) ∧
    (((maybe_sync_profile cfg env st pid force).nickname_applied = true ∨
      (maybe_sync_profile cfg env st pid force).avatar_synced = true) →
      (maybe_sync_profile cfg env st pid force).state =
        { st with last_synced := alist_set (bot_key env) pid st.last_synced }) ∧
    (force = false → alist_get (bot_key env) st.last_synced ≠ some pid →
      (maybe_sync_profile cfg env st pid force).suppressed_by_cache = false) := by
  unfold maybe_sync_profile
  cases h1 : !env.is_aiocq with
  | true =>
    exact ⟨fun _ _ => rfl, fun h => by rcases h with h | h <;> simp at h,
      fun _ _ => rfl⟩
  | false =>
    cases h2 : !(cfg.enabled || force) with
    | true =>
      exact ⟨fun _ _ => rfl, fun h => by rcases h with h | h <;> simp at h,
        fun _ _ => rfl⟩
    | false =>
      cases h3 : !((force || cfg.sync_nickname) || (force || cfg.sync_avatar)) with
      | true =>
        exact ⟨fun _ _ => rfl, fun h => by rcases h with h | h <;> simp at h,
          fun _ _ => rfl⟩
      | false =>
        cases h4 : !force && decide (alist_get (bot_key env) st.last_synced = some pid) with
        | true =>
          refine ⟨fun _ _ => rfl, fun h => by rcases h with h | h <;> simp at h,
            fun hf hne => ?_⟩
          exfalso
          rw [hf] at h4
          simp only [Bool.not_false, Bool.true_and, decide_eq_true_eq] at h4
          exact hne h4
        | false =>
          refine ⟨fun ha hb => ?_, fun h => ?_, fun _ _ => rfl⟩
          · have ha' : maybe_sync_nickname_applied cfg env force = false := ha
            have hb' : maybe_sync_avatar_synced cfg env st pid force = false := hb
            simp [ha', hb']
          · rcases h with h | h
            · have h' : maybe_sync_nickname_applied cfg env force = true := h
              simp [h']
            · have h' : maybe_sync_avatar_synced cfg env st pid force = true := h
              simp [h']

/-- Sync environment where every adapter call is unavailable. -/
def demo_sync_env_failing : SyncEnv :=
  { is_aiocq := true, platform_id := String.toList ("aiocqhttp"),
    self_id := String.toList ("111"), group_id := none,
    has_set_profile := false, set_profile_ok := false, has_call_action := false,
    set_group_card_ok := false, has_set_avatar := false, set_avatar_ok := false }

/-- Sync configuration with both sub-steps requested. -/
def demo_sync_cfg_on : SyncCfg :=
  { enabled := true, sync_nickname := true, sync_avatar := true,
    nickname_sync_mode := mode_profile }

/-- Witness for C9: with every adapter call unavailable, a non-forced
run leaves the sync state unchanged and is not suppressed by the cache. -/
theorem last_synced_update_spec_witness :
    (maybe_sync_profile demo_sync_cfg_on demo_sync_env_failing demo_sync_state
      demo_pid false).state = demo_sync_state ∧
    (maybe_sync_profile demo_sync_cfg_on demo_sync_env_failing demo_sync_state
      demo_pid false).suppressed_by_cache = false := by
  obtain ⟨hA, _, hC⟩ := last_synced_update_spec demo_sync_cfg_on
    demo_sync_env_failing demo_sync_state demo_pid false
  exact ⟨hA (by decide) (by decide), hC rfl (by decide)⟩

/-! ## Claim C10 — nickname formatting cap and fallbacks -/

/-- C10: the formatted nickname never exceeds 60 characters; a failed
template format falls back to the persona id (truncated to 60), and an
empty formatted nickname yields the persona id truncated to 60. -/
theorem format_nickname_spec (formatted : Option Str) (pid : Str) :
    (format_nickname formatted pid).length ≤ 60 ∧
    (formatted = none → format_nickname formatted pid = pid.take 60) ∧
    (format_nickname (some []) pid = pid.take 60) := by
  refine ⟨?_, ?_, ?_⟩
  · unfold format_nickname
    cases formatted with
    | none =>
      by_cases h : pid ≠ [] <;> simp [h, List.length_take]
    | some s =>
      by_cases h : s ≠ [] <;> simp [h, List.length_take]
  · intro h
    subst h
    unfold format_nickname
    by_cases h : pid ≠ [] <;> simp [h]
  · unfold format_nickname
    simp

/-- Witness for C10: a failed format for persona id `Alice` yields
`Alice` (truncated to 60). -/
theorem format_nickname_spec_witness :
    format_nickname none (String.toList ("Alice")) =
      (String.toList ("Alice")).take 60 :=
  (format_nickname_spec none (String.toList ("Alice"))).2.1 rfl
